import Mathlib

/-!
A shallow embedding of the game-state update loop of a Pong-style game
(`src/src/main.rs`): the paddle controller, the collision classifier
(`detect_reset`), the ball reset system (`reset_ball`) and the scoring
system (`score`), together with the startup entity data (`spawn_border`,
`spawn_players`, `spawn_ball`).  Floating point positions, velocities and
frame times are modelled by exact rationals; the per-player score map
(a `HashMap<Player, i32>` defaulting to 0) is modelled by a total function
`Player → ℤ`.
-/

namespace Pong

/-- Window geometry constant `WINDOW_WIDTH` from the source. -/
def WINDOW_WIDTH : ℚ := 1280

/-- Window geometry constant `WINDOW_HEIGHT` from the source. -/
def WINDOW_HEIGHT : ℚ := 720

/-- Ball radius constant `BALL_RADIUS` from the source. -/
def BALL_RADIUS : ℚ := 25

/-- 2D vector (positions, velocities, collider half-extents). -/
structure Vec2 where
  x : ℚ
  y : ℚ
deriving DecidableEq, Repr

/-- 3D vector (the `Transform` component holds a `Vec3` position). -/
structure Vec3 where
  x : ℚ
  y : ℚ
  z : ℚ
deriving DecidableEq, Repr

/-- The all-zero 3D vector, `Vec3::ZERO` in the source. -/
def Vec3.zero : Vec3 := ⟨0, 0, 0⟩

/-- The `Velocity` physics component: `Velocity::linear(v)` stores `v`. -/
structure Velocity where
  linvel : Vec2
deriving DecidableEq, Repr

/-- The `Player` enum: tag component on paddles, goal sensors and
score-display texts. -/
inductive Player where
  | Player1
  | Player2
deriving DecidableEq, Repr

/-- The keyboard keys the game reads (`KeyCode` values used in the source). -/
inductive KeyCode where
  | KeyW
  | KeyS
  | ArrowUp
  | ArrowDown
  | Space
deriving DecidableEq, Repr

/-- Colours used by the game (`Color` values used in the source). -/
inductive GameColor where
  | red
  | green
  | white
  | darkGray
deriving DecidableEq, Repr

/-- `Player::start_speed`: the serve velocity owned by each player. -/
def Player.start_speed : Player → Velocity
  | Player.Player1 => ⟨⟨100, 0⟩⟩
  | Player.Player2 => ⟨⟨-100, 0⟩⟩

/-- `Player::get_colour`: each player's colour. -/
def Player.get_colour : Player → GameColor
  | Player.Player1 => GameColor.red
  | Player.Player2 => GameColor.green

/-- The opposing player (not in the source; used to state placement facts). -/
def Player.other : Player → Player
  | Player.Player1 => Player.Player2
  | Player.Player2 => Player.Player1

/-- The `GameEvents` event enum. -/
inductive GameEvents where
  | ResetBall (p : Player)
  | GainPoint (p : Player)
deriving DecidableEq, Repr

/-- The `Paddle` component: the two configured input keys. -/
structure Paddle where
  move_up : KeyCode
  move_down : KeyCode
deriving DecidableEq, Repr

/-- The keyboard resource `ButtonInput<KeyCode>`: per-key held state and
per-key just-pressed edge signal. -/
structure ButtonInputState where
  pressed : KeyCode → Bool
  justPressed : KeyCode → Bool

/-- Rust `f32::clamp(lo, hi)` on exact rationals (for `lo ≤ hi`). -/
def clampQ (v lo hi : ℚ) : ℚ := max lo (min v hi)

/-- Lower clamp bound in `move_paddle`: `(-WINDOW_HEIGHT / 2.0) + 75.0`. -/
def paddleMinY : ℚ := -WINDOW_HEIGHT / 2 + 75

/-- Upper clamp bound in `move_paddle`: `(WINDOW_HEIGHT / 2.0) - 75.0`. -/
def paddleMaxY : ℚ := WINDOW_HEIGHT / 2 - 75

/-- One frame of the `move_paddle` system for one paddle: if the paddle's
`move_up` key is held, add `100 * dt` to the vertical position and clamp;
then, if its `move_down` key is held, subtract `100 * dt` and clamp. -/
def move_paddle (input : ButtonInputState) (dt : ℚ) (p : Paddle) (y : ℚ) : ℚ :=
  let y1 := if input.pressed p.move_up then clampQ (y + 100 * dt) paddleMinY paddleMaxY else y
  if input.pressed p.move_down then clampQ (y1 - 100 * dt) paddleMinY paddleMaxY else y1

/-- A sequence of frames applied to a paddle's vertical position: each frame
carries the keyboard state and the elapsed frame time. -/
def runPaddle (p : Paddle) (frames : List (ButtonInputState × ℚ)) (y0 : ℚ) : ℚ :=
  frames.foldl (fun y f => move_paddle f.1 f.2 p y) y0

/-- An entity as seen by the classifier's queries: its optional `Player`
tag, whether it carries the `Sensor` marker, and whether it carries a
`Paddle` component. -/
structure Entity where
  player : Option Player
  sensor : Bool
  paddle : Bool
deriving DecidableEq, Repr

/-- The query `Query<&Player, With<Sensor>>` applied to one entity:
`goles.get(hit)` succeeds exactly when the entity has both a `Player` tag
and the `Sensor` marker. -/
def goles_get (e : Entity) : Option Player :=
  if e.sensor then e.player else none

/-- Events emitted for one entity in the ball's touching set: a
`ResetBall`/`GainPoint` pair tagged with the sensor's own player when the
query matches, nothing otherwise. -/
def sensorEvents (e : Entity) : List GameEvents :=
  match goles_get e with
  | some p => [GameEvents.ResetBall p, GameEvents.GainPoint p]
  | none => []

/-- The `detect_reset` system: if Space was just pressed this frame, emit
one `ResetBall(Player1)` and return; otherwise, for each ball, walk its
`CollidingEntities` set in order and emit the pair for every entity that
the sensor query matches. `balls` is the list of balls' touching sets. -/
def detect_reset (input : ButtonInputState) (balls : List (List Entity)) :
    List GameEvents :=
  if input.justPressed KeyCode.Space then [GameEvents.ResetBall Player.Player1]
  else balls.flatMap (fun touching => touching.flatMap sensorEvents)

/-- The `Restitution` component of the ball. -/
inductive CoefficientCombineRule where
  | Average
  | Min
  | Multiply
  | Max
deriving DecidableEq, Repr

/-- The ball's `Restitution` component: coefficient and combine rule. -/
structure Restitution where
  coefficient : ℚ
  combine_rule : CoefficientCombineRule
deriving DecidableEq, Repr

/-- The ball entity's components: the `Transform` position and `Velocity`
that `reset_ball` may write, plus the components it never touches
(collider radius, restitution, sprite colour and size). -/
structure BallEntity where
  translation : Vec3
  velocity : Velocity
  colliderRadius : ℚ
  restitution : Restitution
  spriteColor : GameColor
  spriteSize : Vec2
deriving DecidableEq, Repr

/-- The ball spawned by `spawn_ball`: position `(-300, 0, 1)`, linear
velocity `(100, 0)`, collider radius 25, restitution 1.2 with the Max
combine rule, white sprite of size `(2r, 2r)`. -/
def spawn_ball : BallEntity where
  translation := ⟨-300, 0, 1⟩
  velocity := ⟨⟨100, 0⟩⟩
  colliderRadius := BALL_RADIUS
  restitution := ⟨12/10, CoefficientCombineRule.Max⟩
  spriteColor := GameColor.white
  spriteSize := ⟨BALL_RADIUS * 2, BALL_RADIUS * 2⟩

/-- One event handled by `reset_ball`: a `ResetBall(player)` sets the
ball's position to `Vec3::ZERO` and its velocity to the player's
`start_speed`; any other event leaves the ball unchanged. -/
def resetStep (b : BallEntity) : GameEvents → BallEntity
  | GameEvents.ResetBall p =>
      { b with translation := Vec3.zero, velocity := p.start_speed }
  | GameEvents.GainPoint _ => b

/-- The `reset_ball` system: drain the frame's event list in queue order. -/
def reset_ball (b : BallEntity) (evs : List GameEvents) : BallEntity :=
  evs.foldl resetStep b

/-- A score-display text entity: its displayed string (the first text
section's value) and its `Player` tag. -/
structure TextDisplay where
  text : String
  owner : Player
deriving DecidableEq, Repr

/-- Two's-complement wraparound of an `i32` value, as an integer in
`[-2^31, 2^31)`: the explicit `% 2^32` that release-build Rust applies on
overflow of `+= 1` (a debug build panics at the same point). -/
def wrap32 (n : ℤ) : ℤ := (n + 2147483648) % 4294967296 - 2147483648

/-- The state touched by the `score` system: the `Score` resource
(`HashMap<Player, i32>` read with default 0, modelled as a total map into
the integers, wrapped by `wrap32` on every increment so that the stored
value stays in the `i32` range) and the `Player`-tagged text entities. -/
structure ScoreState where
  score : Player → ℤ
  displays : List TextDisplay

/-- Write `s` into the first display tagged with `p` (the source iterates
the query, skips non-matching owners, writes the match and breaks). -/
def updateFirst (p : Player) (s : String) : List TextDisplay → List TextDisplay
  | [] => []
  | d :: ds =>
      if d.owner = p then { d with text := s } :: ds
      else d :: updateFirst p s ds

/-- One event handled by the `score` system: a `GainPoint(player)`
increments that player's `i32` entry by 1 (with two's-complement
wraparound on overflow), then pushes the updated value's string to that
player's display; a `ResetBall` is ignored. -/
def scoreStep (st : ScoreState) : GameEvents → ScoreState
  | GameEvents.GainPoint p =>
      let newScore : Player → ℤ :=
        fun q => if q = p then wrap32 (st.score q + 1) else st.score q
      { score := newScore
        displays := updateFirst p (toString (newScore p)) st.displays }
  | GameEvents.ResetBall _ => st

/-- The `score` system: drain the frame's event list in queue order. -/
def score (st : ScoreState) (evs : List GameEvents) : ScoreState :=
  evs.foldl scoreStep st

/-- The game state written by the two `PostUpdate` consumers, plus the
paddle positions: `reset_ball` writes only `ball`, `score` writes only
`scoreState`. -/
structure GameState where
  ball : BallEntity
  scoreState : ScoreState
  paddleY : Player → ℚ

/-- `reset_ball` run on the whole game state. -/
def resetBallW (gs : GameState) (evs : List GameEvents) : GameState :=
  { gs with ball := reset_ball gs.ball evs }

/-- `score` run on the whole game state. -/
def scoreW (gs : GameState) (evs : List GameEvents) : GameState :=
  { gs with scoreState := score gs.scoreState evs }

/-- An entity spawned at startup: its position, collider half-extents,
optional `Player` tag, `Sensor` marker and `Paddle` component presence. -/
structure SpawnedEntity where
  translation : Vec3
  colliderHalfExtents : Vec2
  player : Option Player
  sensor : Bool
  paddle : Bool
deriving DecidableEq, Repr

/-- `spawn_border`: top wall, bottom wall, then the Player1-tagged goal
sensor at `x = +WINDOW_WIDTH/2` and the Player2-tagged goal sensor at
`x = -WINDOW_WIDTH/2`. -/
def spawn_border : List SpawnedEntity :=
  [ ⟨⟨0, WINDOW_HEIGHT / 2, 0⟩, ⟨WINDOW_WIDTH / 2, 3⟩, none, false, false⟩,
    ⟨⟨0, -WINDOW_HEIGHT / 2, 0⟩, ⟨WINDOW_WIDTH / 2, 3⟩, none, false, false⟩,
    ⟨⟨WINDOW_WIDTH / 2, 0, 0⟩, ⟨3, WINDOW_HEIGHT / 2⟩, some Player.Player1, true, false⟩,
    ⟨⟨-WINDOW_WIDTH / 2, 0, 0⟩, ⟨3, WINDOW_HEIGHT / 2⟩, some Player.Player2, true, false⟩ ]

/-- `spawn_players`: Player1's paddle at `x = -WINDOW_WIDTH/2 + 20`,
Player2's paddle at `x = WINDOW_WIDTH/2 - 20`, both with half-extents
`(5, 75)`. -/
def spawn_players : List SpawnedEntity :=
  [ ⟨⟨-WINDOW_WIDTH / 2 + 20, 0, 0⟩, ⟨5, 75⟩, some Player.Player1, false, true⟩,
    ⟨⟨WINDOW_WIDTH / 2 - 20, 0, 0⟩, ⟨5, 75⟩, some Player.Player2, false, true⟩ ]

/-- The goal sensor carrying a given player's tag, among the entities
spawned by `spawn_border`. -/
def sensorEntityFor (p : Player) : Option SpawnedEntity :=
  spawn_border.find? (fun e => e.sensor && e.player == some p)

/-- The paddle carrying a given player's tag, among the entities spawned
by `spawn_players`. -/
def paddleEntityFor (p : Player) : Option SpawnedEntity :=
  spawn_players.find? (fun e => e.paddle && e.player == some p)

/-- Two x-coordinates are at the same horizontal end of the playfield when
they are strictly on the same side of the centre line. -/
def sameEnd (a b : ℚ) : Prop := (0 < a ∧ 0 < b) ∨ (a < 0 ∧ b < 0)

/-- The sensor tagged `sp` sits at the same horizontal end of the
playfield as the paddle tagged `pp` (False when either lookup is empty). -/
def sensorSameEndAsPaddle (sp pp : Player) : Prop :=
  match sensorEntityFor sp, paddleEntityFor pp with
  | some se, some pe => sameEnd se.translation.x pe.translation.x
  | _, _ => False

/-- The player whose `ResetBall` event comes last in the list, if any. -/
def lastServe : List GameEvents → Option Player
  | [] => none
  | e :: rest =>
      match lastServe rest with
      | some p => some p
      | none =>
          match e with
          | GameEvents.ResetBall p => some p
          | GameEvents.GainPoint _ => none

/-- Overwrite the ball's position and velocity according to an optional
final serve owner; other components are untouched. -/
def applyServe (b : BallEntity) : Option Player → BallEntity
  | some p => { b with translation := Vec3.zero, velocity := p.start_speed }
  | none => b

/-- A keyboard state with every key held and no key freshly pressed. -/
def inputAllHeld : ButtonInputState := ⟨fun _ => true, fun _ => false⟩

/-- A keyboard state in which only Space was freshly pressed. -/
def inputSpaceJustPressed : ButtonInputState :=
  ⟨fun _ => false, fun k => k == KeyCode.Space⟩

/-- A keyboard state with nothing held and nothing freshly pressed. -/
def inputIdle : ButtonInputState := ⟨fun _ => false, fun _ => false⟩

/-- A concrete score state: both counters at 0, both displays showing 0. -/
def scoreStateAtStart : ScoreState :=
  ⟨fun _ => 0, [⟨"0", Player.Player1⟩, ⟨"0", Player.Player2⟩]⟩

/-- A score state whose only display belongs to Player2. -/
def scoreStateOnlyP2Display : ScoreState :=
  ⟨fun _ => 0, [⟨"0", Player.Player2⟩]⟩

/-- A score state whose only display belongs to Player2 and whose
counters sit at i32::MAX. -/
def scoreStateMaxOnlyP2Display : ScoreState :=
  ⟨fun _ => 2147483647, [⟨"0", Player.Player2⟩]⟩

theorem score_cons (st : ScoreState) (e : GameEvents) (evs : List GameEvents) :
    score st (e :: evs) = score (scoreStep st e) evs := rfl

theorem wrap32_wrap32_add (x y : ℤ) : wrap32 (wrap32 x + y) = wrap32 (x + y) := by
  unfold wrap32
  omega

theorem wrap32_eq_self (n : ℤ) (h1 : -2147483648 ≤ n) (h2 : n < 2147483648) :
    wrap32 n = n := by
  unfold wrap32
  omega

theorem score_score_wrap_eq (evs : List GameEvents) (st : ScoreState) (p : Player) :
    (score st evs).score p
      = if evs.count (GameEvents.GainPoint p) = 0 then st.score p
        else wrap32 (st.score p + (evs.count (GameEvents.GainPoint p) : ℤ)) := by
  induction evs generalizing st with
  | nil => simp [score]
  | cons e rest ih =>
      rw [score_cons, ih]
      cases e with
      | GainPoint q =>
          by_cases hq : q = p
          · subst hq
            have hstep : (scoreStep st (GameEvents.GainPoint q)).score q
                = wrap32 (st.score q + 1) := by simp [scoreStep]
            rcases Nat.eq_zero_or_pos (rest.count (GameEvents.GainPoint q)) with h0 | h0
            · simp [List.count_cons, h0, hstep]
            · have hne : rest.count (GameEvents.GainPoint q) ≠ 0 := by omega
              simp only [hstep, hne, if_false, List.count_cons, beq_self_eq_true,
                if_true, Nat.add_eq_zero, and_false, wrap32_wrap32_add]
              congr 1
              push_cast
              ring
          · have hbeq : (GameEvents.GainPoint q == GameEvents.GainPoint p) = false := by
              simp [hq]
            have hstep : (scoreStep st (GameEvents.GainPoint q)).score p = st.score p := by
              simp [scoreStep, Ne.symm hq]
            simp [List.count_cons, hbeq, hstep]
      | ResetBall q =>
          simp [scoreStep, List.count_cons]

theorem reset_ball_cons (b : BallEntity) (e : GameEvents) (evs : List GameEvents) :
    reset_ball b (e :: evs) = reset_ball (resetStep b e) evs := rfl

theorem reset_ball_eq_applyServe (evs : List GameEvents) (b : BallEntity) :
    reset_ball b evs = applyServe b (lastServe evs) := by
  induction evs generalizing b with
  | nil => rfl
  | cons e rest ih =>
      rw [reset_ball_cons, ih]
      cases h : lastServe rest with
      | some p =>
          cases e with
          | ResetBall q => simp [lastServe, h, applyServe, resetStep]
          | GainPoint q => simp [lastServe, h, applyServe, resetStep]
      | none =>
          cases e with
          | ResetBall q => simp [lastServe, h, applyServe, resetStep]
          | GainPoint q => simp [lastServe, h, applyServe, resetStep]

/-- C1 as stated fails on the code: the score counter is an i32, so
after 2^31 GainPoint(Player1) events from a fresh session
Score[Player1] = -2147483648, not the count 2147483648 — the 2^31-th
event decrements the counter from 2147483647 to -2147483648 instead of
incrementing it by 1. -/
theorem c1_score_wraps_counterexample :
    (score scoreStateAtStart
        (List.replicate 2147483647 (GameEvents.GainPoint Player.Player1))).score
      Player.Player1 = 2147483647
    ∧ (score scoreStateAtStart
        (List.replicate 2147483648 (GameEvents.GainPoint Player.Player1))).score
      Player.Player1 = -2147483648
    ∧ (List.replicate 2147483648 (GameEvents.GainPoint Player.Player1)).count
        (GameEvents.GainPoint Player.Player1) = 2147483648
    ∧ ((-2147483648 : ℤ) ≠ 2147483648) := by
  have hwrap : ∀ n : ℕ, n ≠ 0 →
      (score scoreStateAtStart
          (List.replicate n (GameEvents.GainPoint Player.Player1))).score
        Player.Player1 = wrap32 n := by
    intro n hn
    rw [score_score_wrap_eq, List.count_replicate_self]
    simp [hn, scoreStateAtStart]
  refine ⟨?_, ?_, List.count_replicate_self _ _, by norm_num⟩
  · rw [hwrap 2147483647 (by norm_num)]
    unfold wrap32
    omega
  · rw [hwrap 2147483648 (by norm_num)]
    unfold wrap32
    omega

/-- C1 amended: draining any event list updates each player's i32 score
counter by the count of that player's GainPoint events modulo two's
complement wraparound: each GainPoint(P) maps Score[P] to
wrap32(Score[P] + 1), ResetBall leaves the score map unchanged, and as
long as the starting value is in i32 range and start plus count stays
below i32::MAX the score equals start plus count exactly and never
decreases. -/
theorem c1_score_counts_gain_points_amended (st : ScoreState) (evs : List GameEvents)
    (p : Player)
    (hlo : -2147483648 ≤ st.score p)
    (hhi : st.score p + (evs.count (GameEvents.GainPoint p) : ℤ) < 2147483648) :
    (score st evs).score p = st.score p + (evs.count (GameEvents.GainPoint p) : ℤ)
    ∧ st.score p ≤ (score st evs).score p
    ∧ (scoreStep st (GameEvents.GainPoint p)).score p = wrap32 (st.score p + 1)
    ∧ (scoreStep st (GameEvents.ResetBall p)).score = st.score := by
  have hcount : (0 : ℤ) ≤ (evs.count (GameEvents.GainPoint p) : ℤ) := Int.ofNat_nonneg _
  have heq : (score st evs).score p
      = st.score p + (evs.count (GameEvents.GainPoint p) : ℤ) := by
    rw [score_score_wrap_eq]
    by_cases h0 : evs.count (GameEvents.GainPoint p) = 0
    · simp [h0]
    · simp only [h0, if_false]
      exact wrap32_eq_self _ (by omega) hhi
  exact ⟨heq, by omega, by simp [scoreStep], rfl⟩

theorem c1_score_counts_gain_points_amended_witness :
    -2147483648 ≤ scoreStateAtStart.score Player.Player1
    ∧ scoreStateAtStart.score Player.Player1
        + (([GameEvents.GainPoint Player.Player1, GameEvents.ResetBall Player.Player2,
            GameEvents.GainPoint Player.Player1].count
              (GameEvents.GainPoint Player.Player1) : ℕ) : ℤ) < 2147483648
    ∧ ((score scoreStateAtStart [GameEvents.GainPoint Player.Player1,
          GameEvents.ResetBall Player.Player2,
          GameEvents.GainPoint Player.Player1]).score Player.Player1
        = scoreStateAtStart.score Player.Player1
            + (([GameEvents.GainPoint Player.Player1, GameEvents.ResetBall Player.Player2,
                GameEvents.GainPoint Player.Player1].count
                  (GameEvents.GainPoint Player.Player1) : ℕ) : ℤ)
      ∧ scoreStateAtStart.score Player.Player1
          ≤ (score scoreStateAtStart [GameEvents.GainPoint Player.Player1,
              GameEvents.ResetBall Player.Player2,
              GameEvents.GainPoint Player.Player1]).score Player.Player1
      ∧ (scoreStep scoreStateAtStart (GameEvents.GainPoint Player.Player1)).score
            Player.Player1 = wrap32 (scoreStateAtStart.score Player.Player1 + 1)
      ∧ (scoreStep scoreStateAtStart (GameEvents.ResetBall Player.Player1)).score
          = scoreStateAtStart.score) :=
  ⟨by decide, by decide,
   c1_score_counts_gain_points_amended scoreStateAtStart
     [GameEvents.GainPoint Player.Player1, GameEvents.ResetBall Player.Player2,
      GameEvents.GainPoint Player.Player1] Player.Player1 (by decide) (by decide)⟩

/-- C3: the ball reset system processes ResetBall events in queue order,
each setting the ball to the origin with the serving player's vector
(Player1 gets (100,0), Player2 gets (-100,0)); the final ball state is the
one dictated by the last ResetBall event, and in particular the list
[ResetBall(Player1), ResetBall(Player2)] leaves velocity (-100,0). -/
theorem c3_reset_last_write_wins (b : BallEntity) (evs : List GameEvents) (p : Player)
    (h : lastServe evs = some p) :
    (reset_ball b evs).translation = Vec3.zero
    ∧ (reset_ball b evs).velocity = p.start_speed
    ∧ (resetStep b (GameEvents.ResetBall p)).translation = Vec3.zero
    ∧ (resetStep b (GameEvents.ResetBall p)).velocity = p.start_speed
    ∧ Player.Player1.start_speed = ⟨⟨100, 0⟩⟩
    ∧ Player.Player2.start_speed = ⟨⟨-100, 0⟩⟩
    ∧ (reset_ball b [GameEvents.ResetBall Player.Player1,
        GameEvents.ResetBall Player.Player2]).velocity = ⟨⟨-100, 0⟩⟩ := by
  rw [reset_ball_eq_applyServe, h]
  exact ⟨rfl, rfl, rfl, rfl, rfl, rfl, rfl⟩

theorem c3_reset_last_write_wins_witness :
    lastServe [GameEvents.ResetBall Player.Player1,
        GameEvents.ResetBall Player.Player2] = some Player.Player2
    ∧ ((reset_ball spawn_ball [GameEvents.ResetBall Player.Player1,
          GameEvents.ResetBall Player.Player2]).translation = Vec3.zero
        ∧ (reset_ball spawn_ball [GameEvents.ResetBall Player.Player1,
            GameEvents.ResetBall Player.Player2]).velocity = Player.Player2.start_speed
        ∧ (resetStep spawn_ball (GameEvents.ResetBall Player.Player2)).translation = Vec3.zero
        ∧ (resetStep spawn_ball (GameEvents.ResetBall Player.Player2)).velocity
            = Player.Player2.start_speed
        ∧ Player.Player1.start_speed = ⟨⟨100, 0⟩⟩
        ∧ Player.Player2.start_speed = ⟨⟨-100, 0⟩⟩
        ∧ (reset_ball spawn_ball [GameEvents.ResetBall Player.Player1,
            GameEvents.ResetBall Player.Player2]).velocity = ⟨⟨-100, 0⟩⟩) :=
  ⟨rfl, c3_reset_last_write_wins spawn_ball _ Player.Player2 rfl⟩

/-- C4: when the manual reset key is freshly pressed, the classifier emits
exactly the single event ResetBall(Player1) regardless of what the ball is
touching, so no GainPoint is emitted and running the scoring system on the
frame's events leaves the score state unchanged. -/
theorem c4_manual_reset_suppresses_scoring (input : ButtonInputState)
    (h : input.justPressed KeyCode.Space = true)
    (balls : List (List Entity)) (st : ScoreState) (p : Player) :
    detect_reset input balls = [GameEvents.ResetBall Player.Player1]
    ∧ (detect_reset input balls).count (GameEvents.GainPoint p) = 0
    ∧ score st (detect_reset input balls) = st := by
  have hd : detect_reset input balls = [GameEvents.ResetBall Player.Player1] := by
    simp [detect_reset, h]
  refine ⟨hd, ?_, ?_⟩
  · rw [hd]; simp
  · rw [hd]; rfl

theorem c4_manual_reset_suppresses_scoring_witness :
    detect_reset inputSpaceJustPressed
        [[⟨some Player.Player1, true, false⟩]] = [GameEvents.ResetBall Player.Player1]
    ∧ (detect_reset inputSpaceJustPressed
        [[⟨some Player.Player1, true, false⟩]]).count
          (GameEvents.GainPoint Player.Player1) = 0
    ∧ score scoreStateAtStart (detect_reset inputSpaceJustPressed
        [[⟨some Player.Player1, true, false⟩]]) = scoreStateAtStart :=
  c4_manual_reset_suppresses_scoring inputSpaceJustPressed rfl
    [[⟨some Player.Player1, true, false⟩]] scoreStateAtStart Player.Player1

theorem counts_flatMap_sensorEvents (ts : List Entity) (p : Player) :
    (ts.flatMap sensorEvents).count (GameEvents.GainPoint p)
        = (ts.filter (fun e => goles_get e == some p)).length
    ∧ (ts.flatMap sensorEvents).count (GameEvents.ResetBall p)
        = (ts.filter (fun e => goles_get e == some p)).length := by
  induction ts with
  | nil => simp
  | cons e rest ih =>
      rw [List.flatMap_cons]
      cases hg : goles_get e with
      | some q =>
          by_cases hq : q = p
          · subst hq
            simp [sensorEvents, hg, List.count_append, List.count_cons,
              List.filter_cons, ih.1, ih.2]
          · simp [sensorEvents, hg, List.count_append, List.count_cons,
              List.filter_cons, hq, ih.1, ih.2]
      | none =>
          simp [sensorEvents, hg, List.filter_cons, ih.1, ih.2]

/-- C2: with no fresh manual-reset press, the classifier walks the ball's
touching set and, for every entity matching the Player-tagged-sensor
query, emits exactly one ResetBall and one GainPoint carrying the sensor's
own tag (every touching sensor contributes its own pair); entities without
the Sensor marker or without a Player tag contribute no events. -/
theorem c2_sensor_touches_emit_pairs (input : ButtonInputState)
    (h : input.justPressed KeyCode.Space = false)
    (ts : List Entity) (p : Player) (op : Option Player) (sb pd : Bool) :
    (detect_reset input [ts]).count (GameEvents.GainPoint p)
        = (ts.filter (fun e => goles_get e == some p)).length
    ∧ (detect_reset input [ts]).count (GameEvents.ResetBall p)
        = (ts.filter (fun e => goles_get e == some p)).length
    ∧ detect_reset input [ts] = ts.flatMap sensorEvents
    ∧ sensorEvents ⟨some p, true, pd⟩ = [GameEvents.ResetBall p, GameEvents.GainPoint p]
    ∧ sensorEvents ⟨op, false, pd⟩ = []
    ∧ sensorEvents ⟨none, sb, pd⟩ = [] := by
  have hd : detect_reset input [ts] = ts.flatMap sensorEvents := by
    simp [detect_reset, h]
  rw [hd]
  refine ⟨(counts_flatMap_sensorEvents ts p).1, (counts_flatMap_sensorEvents ts p).2,
    rfl, rfl, rfl, ?_⟩
  cases sb <;> rfl

theorem c2_sensor_touches_emit_pairs_witness :
    (detect_reset inputIdle
        [[⟨some Player.Player1, true, false⟩, ⟨none, false, false⟩,
          ⟨some Player.Player2, false, true⟩]]).count
          (GameEvents.GainPoint Player.Player1)
        = ([⟨some Player.Player1, true, false⟩, ⟨none, false, false⟩,
            (⟨some Player.Player2, false, true⟩ : Entity)].filter
              (fun e => goles_get e == some Player.Player1)).length
    ∧ (detect_reset inputIdle
        [[⟨some Player.Player1, true, false⟩, ⟨none, false, false⟩,
          ⟨some Player.Player2, false, true⟩]]).count
          (GameEvents.ResetBall Player.Player1)
        = ([⟨some Player.Player1, true, false⟩, ⟨none, false, false⟩,
            (⟨some Player.Player2, false, true⟩ : Entity)].filter
              (fun e => goles_get e == some Player.Player1)).length
    ∧ detect_reset inputIdle
        [[⟨some Player.Player1, true, false⟩, ⟨none, false, false⟩,
          ⟨some Player.Player2, false, true⟩]]
        = [⟨some Player.Player1, true, false⟩, ⟨none, false, false⟩,
           (⟨some Player.Player2, false, true⟩ : Entity)].flatMap sensorEvents
    ∧ sensorEvents ⟨some Player.Player1, true, false⟩
        = [GameEvents.ResetBall Player.Player1, GameEvents.GainPoint Player.Player1]
    ∧ sensorEvents ⟨some Player.Player2, false, false⟩ = []
    ∧ sensorEvents ⟨none, true, false⟩ = [] :=
  c2_sensor_touches_emit_pairs inputIdle rfl
    [⟨some Player.Player1, true, false⟩, ⟨none, false, false⟩,
     ⟨some Player.Player2, false, true⟩]
    Player.Player1 (some Player.Player2) true false

/-- C7: draining a frame's events with the ball reset system and then the
scoring system gives the same game state (ball position and velocity,
score map, display texts, paddle positions) as the opposite order: the two
consumers write disjoint fields. -/
theorem c7_consumer_order_commutes (gs : GameState) (evs : List GameEvents) :
    scoreW (resetBallW gs evs) evs = resetBallW (scoreW gs evs) evs := rfl

theorem reset_ball_preserves (b : BallEntity) (evs : List GameEvents) :
    (reset_ball b evs).colliderRadius = b.colliderRadius
    ∧ (reset_ball b evs).restitution = b.restitution
    ∧ (reset_ball b evs).spriteColor = b.spriteColor
    ∧ (reset_ball b evs).spriteSize = b.spriteSize := by
  rw [reset_ball_eq_applyServe]
  cases lastServe evs <;> exact ⟨rfl, rfl, rfl, rfl⟩

/-- C8: the ball reset system writes only the ball's position and
velocity: the ball's collider radius, restitution (coefficient and
combine rule) and sprite are preserved, and so are the score state and the
paddle positions of the rest of the world. -/
theorem c8_reset_changes_only_transform_velocity (gs : GameState)
    (evs : List GameEvents) (b : BallEntity) (p : Player) :
    (resetBallW gs evs).scoreState = gs.scoreState
    ∧ (resetBallW gs evs).paddleY = gs.paddleY
    ∧ (reset_ball b evs).colliderRadius = b.colliderRadius
    ∧ (reset_ball b evs).restitution = b.restitution
    ∧ (reset_ball b evs).spriteColor = b.spriteColor
    ∧ (reset_ball b evs).spriteSize = b.spriteSize
    ∧ (resetStep b (GameEvents.ResetBall p)).colliderRadius = b.colliderRadius
    ∧ (resetStep b (GameEvents.ResetBall p)).restitution = b.restitution
    ∧ (resetStep b (GameEvents.ResetBall p)).spriteColor = b.spriteColor
    ∧ (resetStep b (GameEvents.ResetBall p)).spriteSize = b.spriteSize :=
  ⟨rfl, rfl, (reset_ball_preserves b evs).1, (reset_ball_preserves b evs).2.1,
   (reset_ball_preserves b evs).2.2.1, (reset_ball_preserves b evs).2.2.2,
   rfl, rfl, rfl, rfl⟩

theorem updateFirst_no_match (p : Player) (s : String) (ds : List TextDisplay)
    (h : ∀ d ∈ ds, d.owner ≠ p) : updateFirst p s ds = ds := by
  induction ds with
  | nil => rfl
  | cons d rest ih =>
      have hd : d.owner ≠ p := h d (List.mem_cons_self d rest)
      have hr : updateFirst p s rest = rest :=
        ih (fun x hx => h x (List.mem_cons_of_mem d hx))
      simp [updateFirst, hd, hr]

/-- C9 as stated fails on the code: with no Player1-tagged display and
Score[Player1] at i32::MAX (2147483647), processing GainPoint(Player1)
does not increment the counter by 1 — the i32 wraps to -2147483648 in a
release build (a debug build panics instead, which is also a fault). -/
theorem c9_missing_display_overflow_counterexample :
    (∀ d ∈ scoreStateMaxOnlyP2Display.displays, d.owner ≠ Player.Player1)
    ∧ (scoreStep scoreStateMaxOnlyP2Display (GameEvents.GainPoint Player.Player1)).score
        Player.Player1 = -2147483648
    ∧ scoreStateMaxOnlyP2Display.score Player.Player1 + 1 = 2147483648
    ∧ (scoreStep scoreStateMaxOnlyP2Display (GameEvents.GainPoint Player.Player1)).score
        Player.Player1
      ≠ scoreStateMaxOnlyP2Display.score Player.Player1 + 1 := by
  refine ⟨by decide, ?_, by decide, ?_⟩
  · show wrap32 (2147483647 + 1) = -2147483648
    unfold wrap32
    decide
  · show wrap32 (2147483647 + 1) ≠ 2147483647 + 1
    unfold wrap32
    decide

/-- C9 amended: processing GainPoint(P) when no display entity carries
tag P still updates the score state — Score[P] becomes
wrap32(Score[P] + 1), which is exactly Score[P] + 1 whenever the counter
is in i32 range and below i32::MAX — leaves the other player's counter
alone, and performs no display write (the display list is returned
unchanged). -/
theorem c9_missing_display_best_effort_amended (st : ScoreState) (p : Player)
    (h : ∀ d ∈ st.displays, d.owner ≠ p)
    (hlo : -2147483648 ≤ st.score p) (hhi : st.score p + 1 < 2147483648) :
    (scoreStep st (GameEvents.GainPoint p)).score p = st.score p + 1
    ∧ (scoreStep st (GameEvents.GainPoint p)).score p.other = st.score p.other
    ∧ (scoreStep st (GameEvents.GainPoint p)).displays = st.displays := by
  refine ⟨?_, ?_, ?_⟩
  · have hstep : (scoreStep st (GameEvents.GainPoint p)).score p
        = wrap32 (st.score p + 1) := by simp [scoreStep]
    rw [hstep]
    exact wrap32_eq_self _ (by omega) hhi
  · have ho : p.other ≠ p := by cases p <;> decide
    simp [scoreStep, ho]
  · simpa [scoreStep] using updateFirst_no_match p _ st.displays h

theorem c9_missing_display_best_effort_amended_witness :
    (∀ d ∈ scoreStateOnlyP2Display.displays, d.owner ≠ Player.Player1)
    ∧ -2147483648 ≤ scoreStateOnlyP2Display.score Player.Player1
    ∧ scoreStateOnlyP2Display.score Player.Player1 + 1 < 2147483648
    ∧ ((scoreStep scoreStateOnlyP2Display (GameEvents.GainPoint Player.Player1)).score
          Player.Player1 = scoreStateOnlyP2Display.score Player.Player1 + 1
      ∧ (scoreStep scoreStateOnlyP2Display (GameEvents.GainPoint Player.Player1)).score
          Player.Player1.other = scoreStateOnlyP2Display.score Player.Player1.other
      ∧ (scoreStep scoreStateOnlyP2Display (GameEvents.GainPoint Player.Player1)).displays
          = scoreStateOnlyP2Display.displays) :=
  ⟨by decide, by decide, by decide,
   c9_missing_display_best_effort_amended scoreStateOnlyP2Display Player.Player1
     (by decide) (by decide) (by decide)⟩

/-- C10: the ball spawns at x = -300, y = 0 with velocity (100,0) —
Player1's serve vector — so its starting position is not the world origin
and its starting state differs from the state any ResetBall event
produces (which always places the ball at the origin). -/
theorem c10_initial_ball_differs_from_reset (b : BallEntity) (p : Player) :
    spawn_ball.translation.x = -300
    ∧ spawn_ball.translation.y = 0
    ∧ spawn_ball.velocity = Player.Player1.start_speed
    ∧ spawn_ball.translation ≠ Vec3.zero
    ∧ (reset_ball b [GameEvents.ResetBall p]).translation = Vec3.zero
    ∧ (reset_ball b [GameEvents.ResetBall p]).translation ≠ spawn_ball.translation := by
  refine ⟨rfl, rfl, rfl, ?_, rfl, ?_⟩
  · intro hEq
    have hx := congrArg Vec3.x hEq
    norm_num [spawn_ball, Vec3.zero] at hx
  · intro hEq
    have hx := congrArg Vec3.x hEq
    norm_num [spawn_ball, Vec3.zero, reset_ball, resetStep] at hx

theorem le_clampQ (v lo hi : ℚ) : lo ≤ clampQ v lo hi := le_max_left _ _

theorem clampQ_le (v lo hi : ℚ) (h : lo ≤ hi) : clampQ v lo hi ≤ hi :=
  max_le h (min_le_right v hi)

theorem paddle_bounds_le : paddleMinY ≤ paddleMaxY := by
  norm_num [paddleMinY, paddleMaxY, WINDOW_HEIGHT]

theorem if_clamp_mem (z : ℚ) (hz0 : paddleMinY ≤ z) (hz1 : z ≤ paddleMaxY)
    (c : Bool) (w : ℚ) :
    paddleMinY ≤ (if c = true then clampQ w paddleMinY paddleMaxY else z)
    ∧ (if c = true then clampQ w paddleMinY paddleMaxY else z) ≤ paddleMaxY := by
  cases c
  · simpa using ⟨hz0, hz1⟩
  · simpa using ⟨le_clampQ w paddleMinY paddleMaxY,
      clampQ_le w paddleMinY paddleMaxY paddle_bounds_le⟩

theorem move_paddle_mem (input : ButtonInputState) (dt : ℚ) (pd : Paddle) (y : ℚ)
    (h0 : paddleMinY ≤ y) (h1 : y ≤ paddleMaxY) :
    paddleMinY ≤ move_paddle input dt pd y ∧ move_paddle input dt pd y ≤ paddleMaxY := by
  have ha := if_clamp_mem y h0 h1 (input.pressed pd.move_up) (y + 100 * dt)
  exact if_clamp_mem _ ha.1 ha.2 (input.pressed pd.move_down)
    ((if input.pressed pd.move_up = true
        then clampQ (y + 100 * dt) paddleMinY paddleMaxY else y) - 100 * dt)

theorem runPaddle_mem (pd : Paddle) (frames : List (ButtonInputState × ℚ)) (y0 : ℚ)
    (h0 : paddleMinY ≤ y0) (h1 : y0 ≤ paddleMaxY) :
    paddleMinY ≤ runPaddle pd frames y0 ∧ runPaddle pd frames y0 ≤ paddleMaxY := by
  induction frames generalizing y0 with
  | nil => exact ⟨h0, h1⟩
  | cons f rest ih =>
      have hstep := move_paddle_mem f.1 f.2 pd y0 h0 h1
      exact ih (move_paddle f.1 f.2 pd y0) hstep.1 hstep.2

/-- C5: the paddle update applies the up adjustment and clamps, then the
down adjustment and clamps, in that order (shown here for the both-keys
case, where both adjustments apply); the clamp bounds are -285 and +285,
and from any starting position within them, any sequence of frames with
nonnegative elapsed times keeps the paddle within them. -/
theorem c5_paddle_update_and_clamp (input : ButtonInputState) (pd : Paddle)
    (dt y y0 : ℚ) (frames : List (ButtonInputState × ℚ))
    (hdt : 0 ≤ dt) (hdts : ∀ f ∈ frames, 0 ≤ f.2)
    (h0 : paddleMinY ≤ y0) (h1 : y0 ≤ paddleMaxY)
    (hu : input.pressed pd.move_up = true) (hdn : input.pressed pd.move_down = true) :
    move_paddle input dt pd y
      = clampQ (clampQ (y + 100 * dt) paddleMinY paddleMaxY - 100 * dt)
          paddleMinY paddleMaxY
    ∧ paddleMinY = -285 ∧ paddleMaxY = 285
    ∧ paddleMinY ≤ runPaddle pd frames y0
    ∧ runPaddle pd frames y0 ≤ paddleMaxY :=
  ⟨by simp [move_paddle, hu, hdn],
   by norm_num [paddleMinY, WINDOW_HEIGHT],
   by norm_num [paddleMaxY, WINDOW_HEIGHT],
   (runPaddle_mem pd frames y0 h0 h1).1,
   (runPaddle_mem pd frames y0 h0 h1).2⟩

theorem c5_paddle_update_and_clamp_witness :
    (0 : ℚ) ≤ 1
    ∧ (∀ f ∈ [(inputAllHeld, (1 : ℚ))], 0 ≤ f.2)
    ∧ paddleMinY ≤ 0 ∧ (0 : ℚ) ≤ paddleMaxY
    ∧ (move_paddle inputAllHeld 1 ⟨KeyCode.KeyW, KeyCode.KeyS⟩ 280
        = clampQ (clampQ (280 + 100 * 1) paddleMinY paddleMaxY - 100 * 1)
            paddleMinY paddleMaxY
      ∧ paddleMinY = -285 ∧ paddleMaxY = 285
      ∧ paddleMinY ≤ runPaddle ⟨KeyCode.KeyW, KeyCode.KeyS⟩ [(inputAllHeld, 1)] 0
      ∧ runPaddle ⟨KeyCode.KeyW, KeyCode.KeyS⟩ [(inputAllHeld, 1)] 0 ≤ paddleMaxY) := by
  refine ⟨by norm_num, ?_, by norm_num [paddleMinY, WINDOW_HEIGHT],
    by norm_num [paddleMaxY, WINDOW_HEIGHT], ?_⟩
  · intro f hf
    rw [List.mem_singleton] at hf
    subst hf
    norm_num
  · exact c5_paddle_update_and_clamp inputAllHeld ⟨KeyCode.KeyW, KeyCode.KeyS⟩ 1 280 0
      [(inputAllHeld, 1)] (by norm_num)
      (by intro f hf; rw [List.mem_singleton] at hf; subst hf; norm_num)
      (by norm_num [paddleMinY, WINDOW_HEIGHT])
      (by norm_num [paddleMaxY, WINDOW_HEIGHT]) rfl rfl

/-- C6 as stated fails on the code: Player1's goal sensor sits at
x = +640 while Player1's paddle sits at x = -620, so the sensor tagged
with a player is NOT at the same horizontal end as that player's paddle. -/
theorem c6_sensor_on_own_side_counterexample :
    (sensorEntityFor Player.Player1).map (fun e => e.translation.x) = some 640
    ∧ (paddleEntityFor Player.Player1).map (fun e => e.translation.x) = some (-620)
    ∧ ¬ sensorSameEndAsPaddle Player.Player1 Player.Player1 := by
  refine ⟨?_, ?_, ?_⟩
  · show some (WINDOW_WIDTH / 2) = some 640
    norm_num [WINDOW_WIDTH]
  · show some (-WINDOW_WIDTH / 2 + 20) = some (-620)
    norm_num [WINDOW_WIDTH]
  · show ¬ sameEnd (WINDOW_WIDTH / 2) (-WINDOW_WIDTH / 2 + 20)
    norm_num [sameEnd, WINDOW_WIDTH]

/-- C6 amended: each Player-tagged goal sensor is placed at the playfield
edge on the side OPPOSITE that player's paddle — the same horizontal end
as the opposing player's paddle. -/
theorem c6_sensor_on_opposite_side (p : Player) :
    sensorSameEndAsPaddle p p.other ∧ ¬ sensorSameEndAsPaddle p p := by
  cases p
  · constructor
    · show sameEnd (WINDOW_WIDTH / 2) (WINDOW_WIDTH / 2 - 20)
      norm_num [sameEnd, WINDOW_WIDTH]
    · show ¬ sameEnd (WINDOW_WIDTH / 2) (-WINDOW_WIDTH / 2 + 20)
      norm_num [sameEnd, WINDOW_WIDTH]
  · constructor
    · show sameEnd (-WINDOW_WIDTH / 2) (-WINDOW_WIDTH / 2 + 20)
      norm_num [sameEnd, WINDOW_WIDTH]
    · show ¬ sameEnd (-WINDOW_WIDTH / 2) (WINDOW_WIDTH / 2 - 20)
      norm_num [sameEnd, WINDOW_WIDTH]

end Pong
